import Mathlib

/-!
Shallow embedding of `thunor/curve_fit.py` (dose-response curve fitting).

Conventions of the embedding:

* Python/numpy floats are modelled as `Flt := Option ℚ`, where `none` stands
  for a missing value (Python `None` or IEEE `NaN` — the code treats both as
  "null" in the output tables, and every comparison with `NaN` is false, which
  `none` branches reproduce below).
* Transcendental float primitives (`np.exp`, `np.log`, `np.log10`, `x ** y`,
  `np.std`'s square root, `scipy.stats.f.cdf`) have no computable exact
  counterpart on ℚ; they are abstracted into a `FloatOps` record that every
  definition takes as a parameter.  Theorems quantify over all interpretations
  where possible; concrete evaluations use a mock whose values agree with the
  real functions at the evaluated points (e.g. `x ** 1 = x`, `log10 10 = 1`,
  `sqrt 0 = 0`).
* `scipy.optimize.curve_fit` (a black-box numerical optimizer, together with
  its `p0` initial-guess seed) is abstracted into a function parameter
  `cf : List Sample → Option (List Flt)`; `none` models the `RuntimeError`
  branch, entries of the returned parameter vector may be `NaN` (`none`).
* Rational division by zero is total (`x / 0 = 0`) where float division would
  give `inf`/`nan`; this is only reachable for degenerate parameter values
  that no theorem below depends on.
-/

deriving instance DecidableEq for Except

set_option maxRecDepth 16000

namespace Thunor

/-- A float value: `none` is `NaN`/`None` (missing), `some q` a real value. -/
abbrev Flt := Option ℚ

/-- Abstract interface for the transcendental float primitives used by the
source: `x ** y`, `np.log10`, `np.log`, `np.exp`, the square root inside
`np.std`, and `scipy.stats.f.cdf`.  A result of `none` models `NaN`. -/
structure FloatOps where
  rpow : ℚ → ℚ → Flt
  log10 : ℚ → Flt
  log : ℚ → Flt
  exp : ℚ → Flt
  sqrt : ℚ → Flt
  fcdf : ℚ → ℚ → ℚ → ℚ

/-- Mean of a list of (non-NaN) floats, `np.mean`.  Callers in the source only
apply it to nonempty arrays (`np.mean` of an empty array is `NaN`; the one
possibly-empty call site, the control responses, is guarded in `fit_drc`). -/
def npMean (l : List ℚ) : ℚ := l.sum / l.length

/-- Population standard deviation, `np.std` (square root of the mean squared
deviation).  `np.std` of an empty array is `NaN`, hence `none`. -/
def npStd (F : FloatOps) (l : List ℚ) : Flt :=
  if l.isEmpty then none
  else F.sqrt (npMean (l.map (fun x => (x - npMean l) ^ 2)))

/-- Minimum of a list of floats, `np.min` on an array without NaNs.  `np.min`
of an empty array raises; all call sites have nonempty arrays, the `[]` case
is junk. -/
def npMinQ : List ℚ → ℚ
  | [] => 0
  | a :: l => l.foldl min a

/-- Maximum of a list of floats, `np.max`; see `npMinQ`. -/
def npMaxQ : List ℚ → ℚ
  | [] => 0
  | a :: l => l.foldl max a

/-- Minimum over possibly-NaN floats: `np.min` returns `NaN` when any entry is
`NaN` (and raises on an empty array, modelled as `none`). -/
def npMinF : List Flt → Flt
  | [] => none
  | [a] => a
  | a :: l =>
    match a, npMinF l with
    | some x, some y => some (min x y)
    | _, _ => none

/-- Unique values of a list keeping the first occurrence of each, modelling
`pandas.Index.unique` (which preserves order of appearance). -/
def firstDedup {α : Type} [DecidableEq α] : List α → List α
  | [] => []
  | a :: l => a :: (firstDedup l).filter (fun x => x ≠ a)

/-! ## Curve Model (`HillCurve` hierarchy)

The non-Null variants `HillCurveLL4` / `HillCurveLL3u` / `HillCurveLL2` differ
only in which parameters are free; they are one inductive `LL`.  The flat
no-effect model `HillCurveNull` is the other constructor of `HillCurve`. -/

/-- The non-Null log-logistic variants with their parameter vectors:
`HillCurveLL4(popt=[b,c,d,e])`, `HillCurveLL3u(popt=[b,c,e])`,
`HillCurveLL2(popt=[b,e])`. -/
inductive LL : Type where
  | ll4 (b c d e : ℚ)
  | ll3u (b c e : ℚ)
  | ll2 (b e : ℚ)
deriving DecidableEq

/-- A fitted curve object: the flat `HillCurveNull` (parameter = mean
response) or one of the log-logistic variants. -/
inductive HillCurve : Type where
  | null (ymean : ℚ)
  | ll (c : LL)
deriving DecidableEq

namespace LL

/-- The `hill_slope` property: `popt[0]` for every variant. -/
def hill_slope : LL → ℚ
  | .ll4 b _ _ _ => b
  | .ll3u b _ _ => b
  | .ll2 b _ => b

/-- The `ec50` property: `popt[3]` (LL4), `popt[2]` (LL3u), `popt[1]` (LL2). -/
def ec50 : LL → ℚ
  | .ll4 _ _ _ e => e
  | .ll3u _ _ e => e
  | .ll2 _ e => e

/-- The `e0` property: `popt[2]` for LL4, the fixed upper plateau `1.0` for
LL3u and LL2. -/
def e0 : LL → ℚ
  | .ll4 _ _ d _ => d
  | .ll3u _ _ _ => 1
  | .ll2 _ _ => 1

/-- The `emax` property: `popt[1]` for LL4 and LL3u, the fixed lower plateau
`0.0` for LL2. -/
def emax : LL → ℚ
  | .ll4 _ c _ _ => c
  | .ll3u _ c _ => c
  | .ll2 _ _ => 0

/-- The `divisor` property: `max(self.emax, self.e0)`. -/
def divisor (c : LL) : ℚ := max c.emax c.e0

end LL

/-- The four-parameter log-logistic evaluation
`c + (d - c) / (1 + np.exp(b * (np.log(x) - np.log(e))))`
(`HillCurveLL4.fit_fn`; LL3u and LL2 delegate to it with `d = 1` resp.
`c = 0, d = 1`). -/
def ll4_fn (F : FloatOps) (x b c d e : ℚ) : Flt :=
  match F.log x, F.log e with
  | some lx, some le =>
    match F.exp (b * (lx - le)) with
    | some ex => some (c + (d - c) / (1 + ex))
    | none => none
  | _, _ => none

namespace LL

/-- `fit(x) = fit_fn(x, *popt)` for the non-Null variants. -/
def fit (F : FloatOps) : LL → ℚ → Flt
  | .ll4 b c d e, x => ll4_fn F x b c d e
  | .ll3u b c e, x => ll4_fn F x b c 1 e
  | .ll2 b e, x => ll4_fn F x b 0 1 e

/-- The `popt_rel` parameter vector: plateau entries (`popt[2]` and `popt[1]`
for LL4, `popt[1]` for LL3u, nothing for LL2) divided by `divisor`.  The
lazy caching of the source is pure memoization and is dropped. -/
def popt_rel : LL → LL
  | .ll4 b c d e => .ll4 b (c / max c d) (d / max c d) e
  | .ll3u b c e => .ll3u b (c / max c 1) e
  | .ll2 b e => .ll2 b e

/-- `fit_rel(x) = fit_fn(x, *popt_rel)`. -/
def fit_rel (F : FloatOps) (c : LL) (x : ℚ) : Flt :=
  c.popt_rel.fit F x

/-- `HillCurveLL4.ic`: swap `emax`/`e0` so that `e0 ≥ emax`, then
`ec50 * (ic_frac / (1 - ic_frac - emax/e0)) ** (1 / hill_slope)`, with the
final `np.isnan` guard turning a NaN into `None`.  (The source's
`isinstance(emax, float)` guard is always true for these variants: `popt`
entries and the literal `0.0` are floats.) -/
def ic (F : FloatOps) (c : LL) (ic_num : ℚ) : Flt :=
  let p := if c.emax > c.e0 then (c.e0, c.emax) else (c.emax, c.e0)
  let ic_frac := ic_num / 100
  match F.rpow (ic_frac / (1 - ic_frac - p.1 / p.2)) (1 / c.hill_slope) with
  | none => none
  | some q => some (c.ec50 * q)

/-- `HillCurveLL4.ec`: `None` for `ec_num ≥ 100`, else
`ec50 * (ec_frac / (1 - ec_frac)) ** (1 / hill_slope)` (no NaN guard in the
source; a NaN power propagates to a NaN result, which is `none` here). -/
def ec (F : FloatOps) (c : LL) (ec_num : ℚ) : Flt :=
  if ec_num ≥ 100 then none
  else
    let ec_frac := ec_num / 100
    (F.rpow (ec_frac / (1 - ec_frac)) (1 / c.hill_slope)).map (fun q => c.ec50 * q)

/-- `HillCurveLL4.auc`: with `emax`/`e0` swapped so `e0 ≥ emax`,
`(log10((ec50**b + min_conc**b) / min_conc**b) / b) * ((e0 - emax) / e0)`. -/
def auc (F : FloatOps) (c : LL) (min_conc : ℚ) : Flt :=
  let p := if c.emax > c.e0 then (c.e0, c.emax) else (c.emax, c.e0)
  match F.rpow min_conc c.hill_slope, F.rpow c.ec50 c.hill_slope with
  | some mch, some ech =>
    (F.log10 ((ech + mch) / mch)).map (fun l => l / c.hill_slope * ((p.2 - p.1) / p.2))
  | _, _ => none

/-- `HillCurveLL4.aa`: with `emax`/`e0` swapped so `e0 ≥ emax`, and `emax`
replaced by `emax_obs` when the latter `is not None`,
`log10((ec50**b + max_conc**b) / ec50**b) * ((e0 - emax) / e0) / b`. -/
def aa (F : FloatOps) (c : LL) (max_conc : ℚ) (emax_obs : Option ℚ) : Flt :=
  let p := if c.emax > c.e0 then (c.e0, c.emax) else (c.emax, c.e0)
  let emaxv := match emax_obs with
    | some eo => eo
    | none => p.1
  match F.rpow c.ec50 c.hill_slope, F.rpow max_conc c.hill_slope with
  | some ech, some mch =>
    (F.log10 ((ech + mch) / ech)).map (fun l => l * ((p.2 - emaxv) / p.2) / c.hill_slope)
  | _, _ => none

end LL

namespace HillCurve

/-- `fit`: `HillCurveNull.fit_fn` returns the stored mean regardless of the
dose; the other variants evaluate the log-logistic function. -/
def fit (F : FloatOps) : HillCurve → ℚ → Flt
  | .null m, _ => some m
  | .ll c, x => c.fit F x

/-- `ic`: `HillCurveNull.ic` returns `None`; log-logistic variants compute. -/
def ic (F : FloatOps) : HillCurve → ℚ → Flt
  | .null _, _ => none
  | .ll c, n => c.ic F n

/-- `ec`: `HillCurveNull.ec` returns `None`; log-logistic variants compute. -/
def ec (F : FloatOps) : HillCurve → ℚ → Flt
  | .null _, _ => none
  | .ll c, n => c.ec F n

end HillCurve

/-! ## Curve Fitter (`fit_drc`) -/

/-- One (dose, response, std-error) sample after NaN filtering; `stderr` is
`none` when `response_std_errs=None` was passed. -/
structure Sample where
  dose : ℚ
  resp : ℚ
  stderr : Option ℚ
deriving DecidableEq

/-- Pair the input arrays elementwise (numpy broadcasting requires equal
lengths, so `zip` is exact on valid inputs). -/
def zipSamples (doses : List ℚ) (responses : List Flt) (errs : Option (List ℚ)) :
    List (ℚ × Flt × Option ℚ) :=
  match errs with
  | none => (doses.zip responses).map (fun p => (p.1, p.2, none))
  | some es => (doses.zip (responses.zip es)).map (fun p => (p.1, p.2.1, some p.2.2))

/-- Drop every sample whose response is NaN, together with its dose and
std-error (`doses[~response_nans]` etc. in the source). -/
def nanFilter (l : List (ℚ × Flt × Option ℚ)) : List Sample :=
  l.filterMap (fun p =>
    match p.2.1 with
    | none => none
    | some r => some ⟨p.1, r, p.2.2⟩)

/-- Lexicographic comparison of the `(dose, response[, std_err])` tuples, as
used by Python's `sorted(zip(...))`. -/
def sampleLe (a b : Sample) : Bool :=
  if a.dose < b.dose then true
  else if b.dose < a.dose then false
  else if a.resp < b.resp then true
  else if b.resp < a.resp then false
  else
    match a.stderr, b.stderr with
    | none, _ => true
    | some _, none => true
    | some x, some y => x ≤ y

/-- Insert into a `sampleLe`-sorted list. -/
def insertSample (a : Sample) : List Sample → List Sample
  | [] => [a]
  | b :: l => if sampleLe a b then a :: b :: l else b :: insertSample a l

/-- Sort samples by the full `(dose, response[, std_err])` tuple ascending.
Python's `sorted` compares whole tuples, so its output is exactly the
`sampleLe`-sorted list (ties are identical tuples up to the std-error tail,
where `sampleLe` is still total). -/
def sortSamples : List Sample → List Sample
  | [] => []
  | a :: l => insertSample a (sortSamples l)

/-- NaN-filter, zip, and sort the inputs of `fit_drc` (steps 1-2 of the
source: remove NaN responses, then sort — "curve fit can be sensitive to
order"). -/
def prepSamples (doses : List ℚ) (responses : List Flt) (errs : Option (List ℚ)) :
    List Sample :=
  sortSamples (nanFilter (zipSamples doses responses errs))

/-- The curve classes a caller can pass as `fit_cls`. -/
inductive FitCls : Type where
  | ll4
  | ll3u
  | ll2
deriving DecidableEq

/-- Reject a parameter vector containing NaN (`any(np.isnan(popt))`) and
extract the rational values otherwise. -/
def finiteParams : List Flt → Option (List ℚ)
  | [] => some []
  | none :: _ => none
  | some q :: l => (finiteParams l).map (fun qs => q :: qs)

/-- Build the `fit_cls(popt)` object.  `scipy.optimize.curve_fit` always
returns exactly as many parameters as `fit_fn` takes, so the arity-mismatch
fallback `none` is unreachable on faithful optimizer abstractions. -/
def popt_to_curve : FitCls → List ℚ → Option LL
  | .ll4, [b, c, d, e] => some (.ll4 b c d e)
  | .ll3u, [b, c, e] => some (.ll3u b c e)
  | .ll2, [b, e] => some (.ll2 b e)
  | _, _ => none

/-- The F-test p-value of the fitted curve against the flat mean-response
model: residual sums of squares of both models, `df = len(doses) - 4`,
`f_ratio = (ssq_null - ssq_model) / (ssq_model / df)`,
`p = 1 - scipy.stats.f.cdf(f_ratio, 1, df)`.  A NaN anywhere in the fitted
response curve makes the float sums and hence `p` NaN (`none`). -/
def ftest_p (F : FloatOps) (fit_obj : LL) (samples : List Sample) : Flt :=
  match samples.mapM (fun s => (fit_obj.fit F s.dose).map (fun yc => (yc - s.resp) ^ 2)) with
  | none => none
  | some sqs =>
    let ssq_model := sqs.sum
    let ybar := npMean (samples.map Sample.resp)
    let ssq_null := (samples.map (fun s => (ybar - s.resp) ^ 2)).sum
    let df : ℚ := (samples.length : ℚ) - 4
    let fval := (ssq_null - ssq_model) / (ssq_model / df)
    some (1 - F.fcdf fval 1 df)

/-- The null-model significance test of `fit_drc`: skipped when the threshold
is `None`; otherwise replace the fit by `HillCurveNull(np.mean(responses))`
when `p > null_rejection_threshold` (a NaN `p` compares false). -/
def null_model_result (F : FloatOps) (fit_obj : LL) (samples : List Sample)
    (null_rejection_threshold : Option ℚ) : Option HillCurve :=
  match null_rejection_threshold with
  | none => none
  | some t =>
    match ftest_p F fit_obj samples with
    | none => none
    | some p => if p > t then some (.null (npMean (samples.map Sample.resp))) else none

/-- Body of `fit_drc` after NaN filtering and sorting produced a nonempty
sample list: run the optimizer, reject non-convergence and NaN parameters,
apply the null-model test, the EC50-below-minimum-dose rejection, and the
control-baseline rejection, in source order. -/
def fit_drc_core (F : FloatOps) (cf : List Sample → Option (List Flt))
    (fit_cls : FitCls) (samples : List Sample)
    (null_rejection_threshold : Option ℚ) (ctrl_dose : Option ℚ) :
    Option HillCurve :=
  match cf samples with
  | none => none
  | some popt =>
    match finiteParams popt with
    | none => none
    | some qs =>
      match popt_to_curve fit_cls qs with
      | none => none
      | some fit_obj =>
        match null_model_result F fit_obj samples null_rejection_threshold with
        | some h => some h
        | none =>
          if fit_obj.ec50 < npMinQ (samples.map Sample.dose) then none
          else
            match ctrl_dose with
            | none => some (.ll fit_obj)
            | some cd =>
              let controls := (samples.filter (fun s => s.dose == cd)).map Sample.resp
              match npStd F controls with
              | none => some (.ll fit_obj)
              | some sd =>
                if fit_obj.e0 > npMean controls + sd then none
                else some (.ll fit_obj)

/-- The `fit_drc` entry point: NaN-filter and sort the samples, return `None`
when nothing remains (the `ValueError` branch of the empty `zip`), otherwise
run `fit_drc_core`.  `cf` abstracts `scipy.optimize.curve_fit` together with
the `initial_guess` seed it consumes. -/
def fit_drc (F : FloatOps) (cf : List Sample → Option (List Flt))
    (fit_cls : FitCls) (doses : List ℚ) (responses : List Flt)
    (response_std_errs : Option (List ℚ))
    (null_rejection_threshold : Option ℚ) (ctrl_dose : Option ℚ) :
    Option HillCurve :=
  match prepSamples doses responses response_std_errs with
  | [] => none
  | s :: ss => fit_drc_core F cf fit_cls (s :: ss) null_rejection_threshold ctrl_dose

/-! ## Parameter Enrichment (`_calc_*` row functions, `_attach_extra_params`) -/

/-- One row of the base parameter table produced by `fit_params_minimal`
(columns `fit_obj`, `min_dose_measured`, `max_dose_measured`, `emax_obs`),
plus the dynamically attached `emax` column: `emax_col = none` models the
column being absent from the DataFrame (attribute access then raises),
`emax_col = some v` the column holding value `v` (itself possibly null). -/
structure Row where
  fit_obj : Option HillCurve
  min_dose_measured : ℚ
  max_dose_measured : ℚ
  emax_obs : ℚ
  emax_col : Option Flt
deriving DecidableEq

/-- `_calc_ic`: `None` for a missing fit, the variant's `ic` otherwise,
clamped by `np.min((ic_n, max_dose_measured))` then
`np.max((ic_n, min_dose_measured))`. -/
def _calc_ic (F : FloatOps) (row : Row) (ic_num : ℚ) : Flt :=
  match row.fit_obj with
  | none => none
  | some fo =>
    match fo.ic F ic_num with
    | none => none
    | some icn => some (max (min icn row.max_dose_measured) row.min_dose_measured)

/-- `_calc_ec`: like `_calc_ic` with the variant's `ec`. -/
def _calc_ec (F : FloatOps) (row : Row) (ec_num : ℚ) : Flt :=
  match row.fit_obj with
  | none => none
  | some fo =>
    match fo.ec F ec_num with
    | none => none
    | some ecn => some (max (min ecn row.max_dose_measured) row.min_dose_measured)

/-- `_calc_e`: `None` for a missing fit or a null `ec{n}` column value
(`ec_val`), else the curve (or relative curve) evaluated there.  `fit_rel`
does not exist on `HillCurveNull`; that branch is unreachable because Null
rows always carry null `ec{n}` values. -/
def _calc_e (F : FloatOps) (row : Row) (ec_val : Flt) (relative : Bool) : Flt :=
  match row.fit_obj with
  | none => none
  | some fo =>
    match ec_val with
    | none => none
    | some v =>
      if relative then
        match fo with
        | .null _ => none
        | .ll c => c.fit_rel F v
      else fo.fit F v

/-- A pandas error surfaced by the enrichment step; accessing `row.emax` when
no `emax` column exists raises `AttributeError`. -/
inductive PdError : Type where
  | attributeError
deriving DecidableEq

/-- `_calc_aa`: `None` for a missing or Null fit; otherwise
`row.fit_obj.aa(max_conc=row.max_dose_measured, emax_obs=row.emax)` — note
the source reads the `emax` column, not `emax_obs`.  When the `emax` column
was never attached, the attribute access raises. -/
def _calc_aa (F : FloatOps) (row : Row) : Except PdError Flt :=
  match row.fit_obj with
  | none => .ok none
  | some (.null _) => .ok none
  | some (.ll c) =>
    match row.emax_col with
    | none => .error .attributeError
    | some em => .ok (c.aa F row.max_dose_measured em)

/-- `_calc_auc`: `None` for a missing or Null fit, else
`row.fit_obj.auc(min_conc=row.min_dose_measured)`. -/
def _calc_auc (F : FloatOps) (row : Row) : Flt :=
  match row.fit_obj with
  | none => none
  | some (.null _) => none
  | some (.ll c) => c.auc F row.min_dose_measured

/-- `_calc_ec50`: `None` for a missing or Null fit, else the fitted `ec50`
clamped into the measured dose range. -/
def _calc_ec50 (row : Row) : Flt :=
  match row.fit_obj with
  | none => none
  | some (.null _) => none
  | some (.ll c) =>
    some (max (min c.ec50 row.max_dose_measured) row.min_dose_measured)

/-- The `hill` column lambda of `_attach_extra_params`:
`fo.hill_slope if fo and not isinstance(fo, HillCurveNull) else None`. -/
def hill_col (row : Row) : Flt :=
  match row.fit_obj with
  | none => none
  | some (.null _) => none
  | some (.ll c) => some c.hill_slope

/-- The `emax` column lambda of `_attach_extra_params`:
`None if not row.fit_obj or isinstance(row.fit_obj, HillCurveNull) else
row.fit_obj.fit(row.max_dose_measured)`. -/
def emax_col_fn (F : FloatOps) (row : Row) : Flt :=
  match row.fit_obj with
  | none => none
  | some (.null _) => none
  | some (.ll c) => c.fit F row.max_dose_measured

/-- An enriched row: the (possibly emax-extended) row plus the `aa` column
(`none` when `aa` was not requested). -/
structure ERow where
  row : Row
  aa : Option Flt
deriving DecidableEq

/-- Row-by-row application in the style of `DataFrame.apply(..., axis=1)`:
stops at (propagates) the first raised error, like the pandas loop. -/
def groupsMapM {α β ε : Type} (f : α → Except ε β) : List α → Except ε (List β)
  | [] => .ok []
  | a :: l =>
    match f a with
    | .error e => .error e
    | .ok b =>
      match groupsMapM f l with
      | .error e => .error e
      | .ok bs => .ok (b :: bs)

/-- The per-row step of the `aa` attachment (`base_params.apply(_calc_aa,
axis=1)` when `include_aa`). -/
def attach_row_step (F : FloatOps) (include_aa : Bool) (r : Row) :
    Except PdError ERow :=
  if include_aa then
    match _calc_aa F r with
    | .error e => .error e
    | .ok v => .ok ⟨r, some v⟩
  else .ok ⟨r, none⟩

/-- The `emax`- and `aa`-column steps of `_attach_extra_params`, in source
order (`emax` is attached before `aa` is computed).  The custom
`ic`/`ec`/`e` concentration sets are taken empty (their defaults) and the
`label`, `ec50`, `emax_rel`, `auc` and `hill` columns are independent
per-row computations modelled by the row functions above; none of them can
raise, so they are not repeated here. -/
def _attach_extra_params (F : FloatOps) (base : List Row)
    (include_aa include_emax : Bool) : Except PdError (List ERow) :=
  let rows := base.map (fun r =>
    if include_emax then
      ⟨r.fit_obj, r.min_dose_measured, r.max_dose_measured, r.emax_obs,
        some (emax_col_fn F r)⟩
    else r)
  groupsMapM (attach_row_step F include_aa) rows

/-! ## Truncation Detector (`is_param_truncated`) -/

/-- `PARAM_EQUAL_ATOL = 1e-16`. -/
def PARAM_EQUAL_ATOL : ℚ := 1 / 10 ^ 16

/-- `PARAM_EQUAL_RTOL = 1e-12`. -/
def PARAM_EQUAL_RTOL : ℚ := 1 / 10 ^ 12

/-- `np.isclose(a, b, atol=PARAM_EQUAL_ATOL, rtol=PARAM_EQUAL_RTOL)`:
`|a - b| <= atol + rtol * |b|`, false when `a` is NaN (the `fillna(np.nan)`
in the source maps nulls to NaN, and NaN is close to nothing). -/
def np_isclose (a : Flt) (b : ℚ) : Bool :=
  match a with
  | none => false
  | some q => decide (|q - b| ≤ PARAM_EQUAL_ATOL + PARAM_EQUAL_RTOL * |b|)

/-- `is_param_truncated`, per row and parameter value: close to
`max_dose_measured` or close to `min_dose_measured`.  The source maps this
over the rows of a DataFrame column; the per-value computation is this. -/
def is_param_truncated (v : Flt) (min_dose_measured max_dose_measured : ℚ) : Bool :=
  np_isclose v max_dose_measured || np_isclose v min_dose_measured

/-! ## Group Orchestrator (`fit_params_minimal`) -/

/-- One row of the experimental response table.  `drug` and `dose` are the
index tuples (drug combinations have length > 1); `dataset` and `plate` are
meaningful only when the owning table's `has_dataset` / `has_plate` flags
are set.  Either the DIP columns (`dip_rate`, `dip_fit_std_err`) or the
viability column is populated, per the table's `is_viability` flag. -/
structure ExptRow where
  dataset : String
  cell_line : String
  drug : List String
  dose : List ℚ
  well_id : String
  plate : String
  dip_rate : Flt
  dip_fit_std_err : ℚ
  viability : Flt
deriving DecidableEq

/-- The experimental response table: `has_dataset` models `'dataset' in
expt_data.index.names`, `has_plate` models a `plate` level or column being
present, `is_viability` models `'viability' in expt_data.columns`. -/
structure ExptData where
  has_dataset : Bool
  has_plate : Bool
  is_viability : Bool
  rows : List ExptRow
deriving DecidableEq

/-- One row of the control response table (keyed by dataset?, cell line,
plate, well). -/
structure CtrlRow where
  dataset : String
  cell_line : String
  plate : String
  well_id : String
  dip_rate : Flt
  dip_fit_std_err : ℚ
  value : Flt
deriving DecidableEq

/-- The control response table; `has_dataset` models `'dataset' in
ctrl_data.index.names`. -/
structure CtrlData where
  has_dataset : Bool
  rows : List CtrlRow
deriving DecidableEq

/-- The fatal errors of `fit_params_minimal`:
`DrugCombosNotImplementedError`, and the `ValueError` raised when control
data carries a `dataset` index level but experimental data does not. -/
inductive FitError : Type where
  | drugCombos
  | datasetKeying
deriving DecidableEq

/-- One row of the output parameter table of `fit_params_minimal`. -/
structure FitRow where
  dataset_id : String
  cell_line : String
  drug : String
  fit_obj : Option HillCurve
  min_dose_measured : ℚ
  max_dose_measured : ℚ
  emax_obs : Flt
deriving DecidableEq

/-- `_get_control_responses`: select the dataset slice when a dataset is
given and the control index has one, then the cell-line slice, then only the
plates present in the experimental group (`plates = []` when the
experimental data has no plate information, dropping all controls).  The
`.loc` selections are modelled as filters; `.loc` on a missing cell-line key
raises in pandas, a case no theorem below relies on. -/
def _get_control_responses (ctrl_dip_data : Option CtrlData)
    (dataset : Option String) (cl_name : String)
    (expt_has_plate : Bool) (dip_grp : List ExptRow) : Option (List CtrlRow) :=
  match ctrl_dip_data with
  | none => none
  | some cd =>
    let byDs : List CtrlRow :=
      match dataset with
      | some ds => if cd.has_dataset then cd.rows.filter (fun r => r.dataset == ds) else cd.rows
      | none => cd.rows
    let byCl := byDs.filter (fun r => r.cell_line == cl_name)
    let plates : List String :=
      if expt_has_plate then firstDedup (dip_grp.map (fun r => r.plate)) else []
    some (byCl.filter (fun r => plates.contains r.plate))

/-- Which index dimensions `fit_params_minimal` groups by. -/
structure GroupDims where
  byDataset : Bool
  byCellLine : Bool
  byDrug : Bool
deriving DecidableEq

/-- The adaptive grouping-key selection of `fit_params_minimal`, a pure
function of the distinct-value counts: `['drug']` when several drugs and one
cell line, `['cell_line']` when several cell lines and one drug, otherwise
`['cell_line', 'drug']`; prepend `dataset` when more than one dataset is
present (collapsing to `['dataset']` alone when both the others are
singletons). -/
def group_dims (nDatasets : Option Nat) (nCellLines nDrugs : Nat) : GroupDims :=
  let base : GroupDims :=
    if nDrugs > 1 ∧ nCellLines = 1 then ⟨false, false, true⟩
    else if nCellLines > 1 ∧ nDrugs = 1 then ⟨false, true, false⟩
    else ⟨false, true, true⟩
  match nDatasets with
  | none => base
  | some nd =>
    if nd > 1 then
      if nCellLines = 1 ∧ nDrugs = 1 then ⟨true, false, false⟩
      else ⟨true, base.byCellLine, base.byDrug⟩
    else base

/-- The grouping key of a row under the selected dimensions (drug and dose
tuples have already been flattened to their first element). -/
def groupKey (gd : GroupDims) (r : ExptRow) : String × String × String :=
  (if gd.byDataset then r.dataset else "",
   if gd.byCellLine then r.cell_line else "",
   if gd.byDrug then r.drug.headD "" else "")

/-- The dose/response/std-error arrays a group hands to `fit_drc` (the
arguments of the two `fit_drc` call sites in `fit_params_minimal`):
for viability data, the experimental doses and viability values with no
std errors; for DIP data, the matching control responses each paired with
the synthesized control dose `ctrl_dose_fn(doses_expt)`, concatenated before
the experimental arrays. -/
def fitter_input (is_viability : Bool) (ctrl_data : Option CtrlData)
    (expt_has_plate : Bool) (dataset : Option String) (cl_name : String)
    (dip_grp : List ExptRow) (ctrl_dose_fn : List ℚ → ℚ) :
    List ℚ × List Flt × Option (List ℚ) :=
  let doses_expt := dip_grp.map (fun r => r.dose.headD 0)
  if is_viability then
    (doses_expt, dip_grp.map (fun r => r.viability), none)
  else
    let ctrl_cl := _get_control_responses ctrl_data dataset cl_name expt_has_plate dip_grp
    let dip_ctrl : List Flt :=
      match ctrl_cl with
      | none => []
      | some cs => cs.map (fun r => r.dip_rate)
    let dip_ctrl_std_err : List ℚ :=
      match ctrl_cl with
      | none => []
      | some cs => cs.map (fun r => r.dip_fit_std_err)
    let ctrl_dose_val := ctrl_dose_fn doses_expt
    let doses_ctrl := List.replicate dip_ctrl.length ctrl_dose_val
    (doses_ctrl ++ doses_expt,
     dip_ctrl ++ dip_grp.map (fun r => r.dip_rate),
     some (dip_ctrl_std_err ++ dip_grp.map (fun r => r.dip_fit_std_err)))

/-- The body of the per-group loop of `fit_params_minimal`: resolve the
group's dataset / cell line / drug names, raise the dataset-keying
`ValueError` for DIP data whose controls are dataset-keyed while the
experimental table is not, assemble the fitter arrays, call `fit_drc` with
the default `null_rejection_threshold=0.05`, and record the fit row.  The
`is_viability` re-check inside the source's DIP branch is dead code and is
omitted. -/
def processGroup (F : FloatOps) (cf : List Sample → Option (List Flt))
    (fit_cls : FitCls) (ctrl_data : Option CtrlData)
    (expt_is_viability expt_has_plate : Bool)
    (datasets : Option (List String)) (cell_lines drugs : List String)
    (gd : GroupDims) (ctrl_dose_fn : List ℚ → ℚ)
    (k : String × String × String) (rows : List ExptRow) :
    Except FitError FitRow :=
  let dip_grp := rows.filter (fun r => groupKey gd r == k)
  let dataset : Option String :=
    if gd.byDataset then some k.1
    else
      match datasets with
      | some ds => some (ds.headD "")
      | none => none
  let cl_name := if gd.byCellLine then k.2.1 else cell_lines.headD ""
  let dr_name := if gd.byDrug then k.2.2 else drugs.headD ""
  if expt_is_viability then
    let inp := fitter_input true ctrl_data expt_has_plate dataset cl_name dip_grp ctrl_dose_fn
    let resp_expt := dip_grp.map (fun r => r.viability)
    let fit_obj := fit_drc F cf fit_cls inp.1 inp.2.1 inp.2.2 (some (1 / 20)) none
    .ok ⟨(dataset.getD ""), cl_name, dr_name, fit_obj,
         npMinQ inp.1, npMaxQ inp.1, npMinF resp_expt⟩
  else
    if dataset.isNone && (match ctrl_data with
                          | some cd => cd.has_dataset
                          | none => false) then
      .error .datasetKeying
    else
      let inp := fitter_input false ctrl_data expt_has_plate dataset cl_name dip_grp ctrl_dose_fn
      let resp_expt := dip_grp.map (fun r => r.dip_rate)
      let fit_obj := fit_drc F cf fit_cls inp.1 inp.2.1 inp.2.2 (some (1 / 20)) none
      .ok ⟨(dataset.getD ""), cl_name, dr_name, fit_obj,
           npMinQ inp.1, npMaxQ inp.1, npMinF resp_expt⟩

/-- `fit_params_minimal`: compute the distinct datasets / cell lines / drugs,
abort on drug combinations, flatten the drug and dose index tuples to their
first elements, select the grouping dimensions, and run the per-group loop
(pandas iterates groups by sorted key; key order only permutes output rows
and no property below depends on row order, so first-appearance order is
used). -/
def fit_params_minimal (F : FloatOps) (cf : List Sample → Option (List Flt))
    (ctrl_data : Option CtrlData) (expt_data : ExptData)
    (fit_cls : FitCls) (ctrl_dose_fn : List ℚ → ℚ) :
    Except FitError (List FitRow) :=
  let datasets : Option (List String) :=
    if expt_data.has_dataset then some (firstDedup (expt_data.rows.map (fun r => r.dataset)))
    else none
  let cell_lines := firstDedup (expt_data.rows.map (fun r => r.cell_line))
  if expt_data.rows.any (fun r => r.drug.length > 1) then .error .drugCombos
  else
    let drugs := firstDedup (expt_data.rows.map (fun r => r.drug.headD ""))
    let gd := group_dims (datasets.map List.length) cell_lines.length drugs.length
    let keys := firstDedup (expt_data.rows.map (groupKey gd))
    groupsMapM
      (fun k => processGroup F cf fit_cls ctrl_data expt_data.is_viability
        expt_data.has_plate datasets cell_lines drugs gd ctrl_dose_fn k expt_data.rows)
      keys

/-! ## A concrete float interpretation for witnesses

Witness and counterexample evaluations instantiate the abstract `FloatOps`
with `mockF` below.  Where the validity of a counterexample rests on the
values (`rpow` and `log10` in the activity-area formula), `mockF` agrees
with the true float functions at every evaluated point: `x ** 1 = x` and
`log10 10 = 1` exactly.  `sqrt 0 = 0` is also exact.  `log`/`exp`/`fcdf`
return fixed simple values, which only steer concrete runs into definite
branches of control flow that the corresponding theorems quantify over all
interpretations of. -/

/-- Concrete interpretation of the float primitives used by the witness and
counterexample evaluations. -/
def mockF : FloatOps where
  rpow := fun x y => if y = 1 then some x else if x = 1 then some 1 else none
  log10 := fun x => if x = 10 then some 1 else none
  log := fun _ => some 0
  exp := fun _ => some 0
  sqrt := fun x => if x = 0 then some 0 else none
  fcdf := fun _ _ _ => 0

/-! ## Claim C9 -/

/-- C9: the truncation detector reports true for a (non-null) parameter value
exactly when the value is within combined absolute tolerance `1e-16` and
relative tolerance `1e-12` of `min_dose_measured` or `max_dose_measured` (a
null value is never truncated); in particular
`is_truncated(1e-9, min=1e-9, max=1e-5)` is true and
`is_truncated(1e-7, min=1e-9, max=1e-5)` is false. -/
theorem C9_theorem :
    (∀ v mn mx : ℚ,
      is_param_truncated (some v) mn mx = true ↔
        (|v - mx| ≤ PARAM_EQUAL_ATOL + PARAM_EQUAL_RTOL * |mx| ∨
         |v - mn| ≤ PARAM_EQUAL_ATOL + PARAM_EQUAL_RTOL * |mn|))
    ∧ (∀ mn mx : ℚ, is_param_truncated none mn mx = false)
    ∧ is_param_truncated (some (1 / 10 ^ 9)) (1 / 10 ^ 9) (1 / 10 ^ 5) = true
    ∧ is_param_truncated (some (1 / 10 ^ 7)) (1 / 10 ^ 9) (1 / 10 ^ 5) = false := by
  refine ⟨?_, ?_, ?_, ?_⟩
  · intro v mn mx
    simp [is_param_truncated, np_isclose]
  · intro mn mx
    rfl
  · with_unfolding_all decide
  · with_unfolding_all decide

/-! ## Claim C1 -/

/-- C1: evaluation of `fit_drc` at an input reaching the control-baseline
check where the fitted baseline `e0 = 1` strictly exceeds
`mean(control responses) + std(control responses) = 1/2 + 0`: the claim (and
the docstring of `fit_drc`) say this fit must be accepted, but the source's
comparison is inverted (`if fit_obj.e0 > mean + std: return None`) and the
fit is rejected. -/
theorem C1_code_eval :
    fit_drc mockF (fun _ => some [some 1, some 0, some 1, some 2]) .ll4
        [1 / 1000, 1 / 1000, 1, 10]
        [some (1 / 2), some (1 / 2), some (3 / 4), some (9 / 10)]
        none none (some (1 / 1000)) = none
    ∧ LL.e0 (.ll4 1 0 1 2) > npMean [1 / 2, 1 / 2] + 0
    ∧ npStd mockF [1 / 2, 1 / 2] = some 0 := by
  refine ⟨?_, ?_, ?_⟩ <;> with_unfolding_all decide

/-! ## Claim C2 -/

/-- C2 counterexample: a row with a non-Null fit (`b=1, c=0, d=1, e=1`), max
dose `9`, `emax_obs = 1/4`, and `emax` column value `1` (which is the fitted
curve evaluated at the max dose, `emax_col_fn`): the computed `aa` value is
`0`, while the activity-area formula with the row's `emax_obs` substituted as
the override gives `3/4` — `_calc_aa` passes `row.emax`, not `row.emax_obs`.
(`mockF` agrees with the true float functions here: `x ** 1 = x` and
`log10 10 = 1`.) -/
theorem C2_counterexample :
    _calc_aa mockF ⟨some (.ll (.ll4 1 0 1 1)), 1, 9, 1 / 4, some (some 1)⟩ = .ok (some 0)
    ∧ emax_col_fn mockF ⟨some (.ll (.ll4 1 0 1 1)), 1, 9, 1 / 4, some (some 1)⟩ = some 1
    ∧ LL.aa mockF (.ll4 1 0 1 1) 9 (some (1 / 4)) = some (3 / 4)
    ∧ (Except.ok (some (0 : ℚ)) : Except PdError Flt) ≠ .ok (some (3 / 4)) := by
  refine ⟨?_, ?_, ?_, ?_⟩ <;> with_unfolding_all decide

/-- C2 (amended): for every row whose fit result is a non-Null fitted curve
and whose `emax` column was attached by the `include_emax` step, the computed
`aa` value is the activity-area formula evaluated with
`max_conc = max_dose_measured` and with the row's `emax` value — the fitted
curve evaluated at `max_dose_measured` — substituted as the observed-Emax
override (not the row's `emax_obs`). -/
theorem C2_theorem (F : FloatOps) (row : Row) (c : LL)
    (hfit : row.fit_obj = some (.ll c))
    (hcol : row.emax_col = some (emax_col_fn F row)) :
    _calc_aa F row =
      .ok (c.aa F row.max_dose_measured (c.fit F row.max_dose_measured)) := by
  simp only [_calc_aa, hfit, hcol, emax_col_fn]

/-- C2 witness: the amended theorem applied at a concrete row. -/
theorem C2_witness :
    _calc_aa mockF ⟨some (.ll (.ll4 1 0 1 5)), 1, 10, 0, some (some 1)⟩ =
      .ok (LL.aa mockF (.ll4 1 0 1 5) 10 (LL.fit mockF (.ll4 1 0 1 5) 10)) := by
  exact C2_theorem mockF ⟨some (.ll (.ll4 1 0 1 5)), 1, 10, 0, some (some 1)⟩
    (.ll4 1 0 1 5) rfl (by with_unfolding_all decide)

/-! ## Claim C5 -/

/-- With an absent threshold `fit_drc_core` can only produce `none` or a
log-logistic curve, never the Null variant. -/
theorem fit_drc_core_no_null (F : FloatOps) (cf : List Sample → Option (List Flt))
    (cls : FitCls) (samples : List Sample) (cd : Option ℚ) (m : ℚ) :
    fit_drc_core F cf cls samples none cd ≠ some (.null m) := by
  unfold fit_drc_core
  split
  · simp
  · split
    · simp
    · split
      · simp
      · split
        · next h heq => simp [null_model_result] at heq
        · dsimp only
          repeat' split
          all_goals simp

/-- C5: with a non-absent threshold, when the optimizer converges to finite
parameters and the F-test p-value — computed by `ftest_p` from the residual
sum of squares of the fitted curve versus the flat mean-response model with
`df = n - 4` — exceeds the threshold, `fit_drc` returns the Null variant
whose single parameter is the mean of the (NaN-filtered) responses; with an
absent threshold the test is skipped and a Null variant is never returned. -/
theorem C5_theorem :
    (∀ (F : FloatOps) (cf : List Sample → Option (List Flt)) (cls : FitCls)
       (doses : List ℚ) (responses : List Flt) (errs : Option (List ℚ))
       (t : ℚ) (cd : Option ℚ) (s : Sample) (ss : List Sample)
       (popt : List Flt) (qs : List ℚ) (fo : LL) (p : ℚ),
       prepSamples doses responses errs = s :: ss →
       cf (s :: ss) = some popt →
       finiteParams popt = some qs →
       popt_to_curve cls qs = some fo →
       ftest_p F fo (s :: ss) = some p →
       p > t →
       fit_drc F cf cls doses responses errs (some t) cd =
         some (.null (npMean ((s :: ss).map Sample.resp))))
    ∧ (∀ (F : FloatOps) (cf : List Sample → Option (List Flt)) (cls : FitCls)
       (doses : List ℚ) (responses : List Flt) (errs : Option (List ℚ))
       (cd : Option ℚ) (m : ℚ),
       fit_drc F cf cls doses responses errs none cd ≠ some (.null m)) := by
  constructor
  · intro F cf cls doses responses errs t cd s ss popt qs fo p hs hcf hfin hcurve hft hp
    unfold fit_drc
    rw [hs]
    unfold fit_drc_core null_model_result
    simp only [hcf, hfin, hcurve, hft, if_pos hp]
  · intro F cf cls doses responses errs cd m
    unfold fit_drc
    cases hs : prepSamples doses responses errs with
    | nil => simp
    | cons s ss => exact fit_drc_core_no_null F cf cls (s :: ss) cd m

/-- C5 witness: a constant response `1` over five doses with an optimizer
converging to `(b, c, d, e) = (1, 0, 1, 5)`; the F-test p-value is `1 > 0.05`
and the fit collapses to `Null(1)`, while the same call with an absent
threshold does not return a Null variant. -/
theorem C5_witness :
    fit_drc mockF (fun _ => some [some 1, some 0, some 1, some 5]) .ll4
        [1, 2, 3, 4, 5] [some 1, some 1, some 1, some 1, some 1]
        none (some (1 / 20)) none = some (.null 1)
    ∧ fit_drc mockF (fun _ => some [some 1, some 0, some 1, some 5]) .ll4
        [1, 2, 3, 4, 5] [some 1, some 1, some 1, some 1, some 1]
        none none none ≠ some (.null 1) := by
  constructor
  · have h := C5_theorem.1 mockF (fun _ => some [some 1, some 0, some 1, some 5]) .ll4
      [1, 2, 3, 4, 5] [some 1, some 1, some 1, some 1, some 1] none (1 / 20) none
      ⟨1, 1, none⟩ [⟨2, 1, none⟩, ⟨3, 1, none⟩, ⟨4, 1, none⟩, ⟨5, 1, none⟩]
      [some 1, some 0, some 1, some 5] [1, 0, 1, 5] (.ll4 1 0 1 5) 1
      (by with_unfolding_all decide) rfl (by with_unfolding_all decide) rfl
      (by with_unfolding_all decide) (by with_unfolding_all decide)
    exact h.trans (by with_unfolding_all decide)
  · exact C5_theorem.2 mockF (fun _ => some [some 1, some 0, some 1, some 5]) .ll4
      [1, 2, 3, 4, 5] [some 1, some 1, some 1, some 1, some 1] none none 1

/-! ## Claim C6 -/

/-- C6: when the optimizer converges to finite parameters and the null-model
test does not convert the result to the Null variant, a fitted EC50 strictly
below the minimum dose of the NaN-filtered sample set makes `fit_drc` return
`none`. -/
theorem C6_theorem (F : FloatOps) (cf : List Sample → Option (List Flt))
    (cls : FitCls) (doses : List ℚ) (responses : List Flt)
    (errs : Option (List ℚ)) (thr cd : Option ℚ) (s : Sample) (ss : List Sample)
    (popt : List Flt) (qs : List ℚ) (fo : LL)
    (hs : prepSamples doses responses errs = s :: ss)
    (hcf : cf (s :: ss) = some popt)
    (hfin : finiteParams popt = some qs)
    (hcurve : popt_to_curve cls qs = some fo)
    (hnull : null_model_result F fo (s :: ss) thr = none)
    (hec : fo.ec50 < npMinQ ((s :: ss).map Sample.dose)) :
    fit_drc F cf cls doses responses errs thr cd = none := by
  unfold fit_drc
  rw [hs]
  unfold fit_drc_core
  simp only [hcf, hfin, hcurve, hnull, if_pos hec]

/-- C6 witness: a fitted `ec50 = 1/20` with minimum tested dose `1/10` (the
EC50 is half the minimum dose, as in the spec's scenario `ec50 = 5e-10` with
`min = 1e-9`) is rejected. -/
theorem C6_witness :
    fit_drc mockF (fun _ => some [some 1, some 0, some 1, some (1 / 20)]) .ll4
        [1 / 10, 1] [some 1, some 2] none none none = none := by
  exact C6_theorem mockF (fun _ => some [some 1, some 0, some 1, some (1 / 20)])
    .ll4 [1 / 10, 1] [some 1, some 2] none none none
    ⟨1 / 10, 1, none⟩ [⟨1, 2, none⟩]
    [some 1, some 0, some 1, some (1 / 20)] [1, 0, 1, 1 / 20]
    (.ll4 1 0 1 (1 / 20))
    (by with_unfolding_all decide) rfl (by with_unfolding_all decide) rfl rfl
    (by with_unfolding_all decide)

/-! ## Claim C7 -/

/-- C7: every derived statistic column value (`ic{n}`, `ec{n}`, `e{n}`,
`auc`, `aa`, `hill`, `emax`, and the clamped `ec50`) is null for a row whose
fit result is absent, and the curve-shape-dependent statistics `auc`, `aa`,
`hill` and the clamped `ec50` are additionally null for a row whose fit
result is the Null variant. -/
theorem C7_theorem (F : FloatOps) (row : Row) (ic_num ec_num : ℚ)
    (ec_val : Flt) (relative : Bool) :
    (row.fit_obj = none →
      _calc_ic F row ic_num = none ∧ _calc_ec F row ec_num = none ∧
      _calc_e F row ec_val relative = none ∧ _calc_auc F row = none ∧
      _calc_aa F row = .ok none ∧ hill_col row = none ∧
      emax_col_fn F row = none ∧ _calc_ec50 row = none)
    ∧ (∀ m : ℚ, row.fit_obj = some (.null m) →
      _calc_auc F row = none ∧ _calc_aa F row = .ok none ∧
      hill_col row = none ∧ _calc_ec50 row = none) := by
  constructor
  · intro h
    refine ⟨?_, ?_, ?_, ?_, ?_, ?_, ?_, ?_⟩ <;>
      simp [_calc_ic, _calc_ec, _calc_e, _calc_auc, _calc_aa, hill_col,
        emax_col_fn, _calc_ec50, h]
  · intro m h
    refine ⟨?_, ?_, ?_, ?_⟩ <;>
      simp [_calc_auc, _calc_aa, hill_col, _calc_ec50, h]

/-- C7 witness: the null-propagation conclusions at a concrete absent-fit row
and a concrete Null-fit row. -/
theorem C7_witness :
    (_calc_ic mockF ⟨none, 1, 2, 0, none⟩ 50 = none ∧
     _calc_ec mockF ⟨none, 1, 2, 0, none⟩ 50 = none ∧
     _calc_e mockF ⟨none, 1, 2, 0, none⟩ (some 1) false = none ∧
     _calc_auc mockF ⟨none, 1, 2, 0, none⟩ = none ∧
     _calc_aa mockF ⟨none, 1, 2, 0, none⟩ = .ok none ∧
     hill_col ⟨none, 1, 2, 0, none⟩ = none ∧
     emax_col_fn mockF ⟨none, 1, 2, 0, none⟩ = none ∧
     _calc_ec50 ⟨none, 1, 2, 0, none⟩ = none)
    ∧ (_calc_auc mockF ⟨some (.null 3), 1, 2, 0, none⟩ = none ∧
       _calc_aa mockF ⟨some (.null 3), 1, 2, 0, none⟩ = .ok none ∧
       hill_col ⟨some (.null 3), 1, 2, 0, none⟩ = none ∧
       _calc_ec50 ⟨some (.null 3), 1, 2, 0, none⟩ = none) := by
  exact ⟨(C7_theorem mockF ⟨none, 1, 2, 0, none⟩ 50 50 (some 1) false).1 rfl,
         (C7_theorem mockF ⟨some (.null 3), 1, 2, 0, none⟩ 50 50 (some 1) false).2 3 rfl⟩

/-! ## Claim C8 -/

/-- C8: whenever the `ic{n}` or `ec{n}` row computation returns a non-null
value, that value lies within `[min_dose_measured, max_dose_measured]`
inclusive (the measured range is nonempty since both bounds come from the
same dose array). -/
theorem C8_theorem (F : FloatOps) (row : Row) (ic_num ec_num v w : ℚ)
    (hrange : row.min_dose_measured ≤ row.max_dose_measured) :
    (_calc_ic F row ic_num = some v →
      row.min_dose_measured ≤ v ∧ v ≤ row.max_dose_measured)
    ∧ (_calc_ec F row ec_num = some w →
      row.min_dose_measured ≤ w ∧ w ≤ row.max_dose_measured) := by
  constructor
  · intro h
    rcases hfo : row.fit_obj with _ | fo
    · simp [_calc_ic, hfo] at h
    · rcases hic : fo.ic F ic_num with _ | q
      · simp [_calc_ic, hfo, hic] at h
      · simp only [_calc_ic, hfo, hic, Option.some.injEq] at h
        subst h
        exact ⟨le_max_right _ _, max_le (min_le_right _ _) hrange⟩
  · intro h
    rcases hfo : row.fit_obj with _ | fo
    · simp [_calc_ec, hfo] at h
    · rcases hec : fo.ec F ec_num with _ | q
      · simp [_calc_ec, hfo, hec] at h
      · simp only [_calc_ec, hfo, hec, Option.some.injEq] at h
        subst h
        exact ⟨le_max_right _ _, max_le (min_le_right _ _) hrange⟩

/-- C8 witness: a concrete row (`min = 1`, `max = 10`) where `ic50` and
`ec50` both evaluate to `5`, with the clamping bounds instantiated there. -/
theorem C8_witness :
    _calc_ic mockF ⟨some (.ll (.ll4 1 0 1 5)), 1, 10, 0, none⟩ 50 = some 5
    ∧ _calc_ec mockF ⟨some (.ll (.ll4 1 0 1 5)), 1, 10, 0, none⟩ 50 = some 5
    ∧ ((1 : ℚ) ≤ 5 ∧ (5 : ℚ) ≤ 10) ∧ ((1 : ℚ) ≤ 5 ∧ (5 : ℚ) ≤ 10) := by
  refine ⟨by with_unfolding_all decide, by with_unfolding_all decide, ?_, ?_⟩
  · exact (C8_theorem mockF ⟨some (.ll (.ll4 1 0 1 5)), 1, 10, 0, none⟩ 50 50 5 5
      (by norm_num)).1 (by with_unfolding_all decide)
  · exact (C8_theorem mockF ⟨some (.ll (.ll4 1 0 1 5)), 1, 10, 0, none⟩ 50 50 5 5
      (by norm_num)).2 (by with_unfolding_all decide)

/-! ## Claim C10 -/

/-- Applying the `aa` computation row-by-row raises as soon as it reaches a
row with a non-Null fitted curve but no `emax` column. -/
theorem attach_aa_err (F : FloatOps) (l : List Row)
    (hnoemax : ∀ r ∈ l, r.emax_col = none)
    (hfit : ∃ r ∈ l, ∃ c, r.fit_obj = some (.ll c)) :
    groupsMapM (attach_row_step F true) l = .error .attributeError := by
  induction l with
  | nil => simp at hfit
  | cons a l ih =>
    by_cases ha : ∃ c, a.fit_obj = some (.ll c)
    · obtain ⟨c, hc⟩ := ha
      have hae : a.emax_col = none := hnoemax a (List.mem_cons_self a l)
      have hstep : attach_row_step F true a = .error .attributeError := by
        simp [attach_row_step, _calc_aa, hc, hae]
      unfold groupsMapM
      rw [hstep]
    · have hrest : ∃ r ∈ l, ∃ c, r.fit_obj = some (.ll c) := by
        obtain ⟨r, hr, c, hc⟩ := hfit
        rcases List.mem_cons.mp hr with h | h
        · exact absurd ⟨c, h ▸ hc⟩ ha
        · exact ⟨r, h, c, hc⟩
      have hih := ih (fun r hr => hnoemax r (List.mem_cons_of_mem a hr)) hrest
      unfold groupsMapM
      rcases hstep : attach_row_step F true a with e | b
      · cases e
        rfl
      · rw [hih]

/-- C10: requesting `aa` without `emax` on a base table (which carries no
`emax` column) containing at least one row with a successful non-Null fit
raises the attribute error instead of producing a value or a null:
`_calc_aa` reads the `emax` column, which only exists when `emax` was
requested. -/
theorem C10_theorem (F : FloatOps) (base : List Row)
    (hnoemax : ∀ r ∈ base, r.emax_col = none)
    (hfit : ∃ r ∈ base, ∃ c, r.fit_obj = some (.ll c)) :
    _attach_extra_params F base true false = .error .attributeError := by
  unfold _attach_extra_params
  have hmap : base.map (fun r =>
      if (false : Bool) then
        (⟨r.fit_obj, r.min_dose_measured, r.max_dose_measured, r.emax_obs,
          some (emax_col_fn F r)⟩ : Row)
      else r) = base := by
    simp
  rw [hmap]
  exact attach_aa_err F base hnoemax hfit

/-- C10 witness: a one-row table with a successful LL4 fit and no emax
column errors out when `aa` is requested without `emax`. -/
theorem C10_witness :
    _attach_extra_params mockF [⟨some (.ll (.ll4 1 0 1 5)), 1, 10, 0, none⟩]
      true false = .error .attributeError := by
  exact C10_theorem mockF [⟨some (.ll (.ll4 1 0 1 5)), 1, 10, 0, none⟩]
    (by intro r hr
        rw [List.mem_singleton] at hr
        subst hr
        rfl)
    ⟨⟨some (.ll (.ll4 1 0 1 5)), 1, 10, 0, none⟩, List.mem_singleton.mpr rfl,
     .ll4 1 0 1 5, rfl⟩

/-! ## Claim C3 -/

/-- Unfolding lemma for `firstDedup` on a nonempty list. -/
theorem firstDedup_cons {α : Type} [DecidableEq α] (a : α) (l : List α) :
    firstDedup (a :: l) = a :: (firstDedup l).filter (fun x => x ≠ a) := rfl

/-- The per-group loop aborts with the error of its first group. -/
theorem groupsMapM_cons_error {α β ε : Type} (f : α → Except ε β) (a : α)
    (l : List α) (e : ε) (h : f a = .error e) :
    groupsMapM f (a :: l) = .error e := by
  unfold groupsMapM
  rw [h]

/-- Without a dataset dimension in the experimental data, the selected
grouping dimensions never include `dataset`. -/
theorem group_dims_none_byDataset (a b : Nat) :
    (group_dims none a b).byDataset = false := by
  unfold group_dims
  dsimp only
  split_ifs <;> rfl

/-- A DIP-data group raises the dataset-keying `ValueError` whenever the
experimental data has no dataset dimension (so the group resolves no
dataset) while the control table is dataset-keyed. -/
theorem processGroup_keying_error (F : FloatOps)
    (cf : List Sample → Option (List Flt)) (fit_cls : FitCls) (cd : CtrlData)
    (expt_has_plate : Bool) (cell_lines drugs : List String) (gd : GroupDims)
    (ctrl_dose_fn : List ℚ → ℚ) (k : String × String × String)
    (rows : List ExptRow)
    (hgd : gd.byDataset = false) (hcd : cd.has_dataset = true) :
    processGroup F cf fit_cls (some cd) false expt_has_plate none cell_lines
      drugs gd ctrl_dose_fn k rows = .error .datasetKeying := by
  unfold processGroup
  simp [hgd, hcd]

/-- C3 (amended): for DIP-rate data (no drug combinations), when the
experimental table has no dataset dimension but the control table does, the
whole computation fails with the invalid-input error before producing any
output table; the opposite direction (experimental has `dataset`, control
does not) does not fail — see the counterexample. -/
theorem C3_theorem (F : FloatOps) (cf : List Sample → Option (List Flt))
    (fit_cls : FitCls) (ctrl_dose_fn : List ℚ → ℚ) (cd : CtrlData)
    (expt : ExptData)
    (hds : expt.has_dataset = false)
    (hviab : expt.is_viability = false)
    (hcd : cd.has_dataset = true)
    (hnc : expt.rows.any (fun r => r.drug.length > 1) = false)
    (hne : expt.rows ≠ []) :
    fit_params_minimal F cf (some cd) expt fit_cls ctrl_dose_fn =
      .error .datasetKeying := by
  obtain ⟨r, rs, hr⟩ : ∃ a l, expt.rows = a :: l := by
    cases hrr : expt.rows with
    | nil => exact absurd hrr hne
    | cons a l => exact ⟨a, l, rfl⟩
  have hnc' : ((r :: rs).any fun rr => decide (rr.drug.length > 1)) = false := by
    rw [hr] at hnc
    exact hnc
  unfold fit_params_minimal
  simp only [hds, hviab, hr, hnc', Bool.false_eq_true, if_false, Option.map_none']
  rw [List.map_cons, firstDedup_cons]
  exact groupsMapM_cons_error _ _ _ _
    (processGroup_keying_error F cf fit_cls cd expt.has_plate _ _ _
      ctrl_dose_fn _ (r :: rs) (group_dims_none_byDataset _ _) hcd)

/-- C3 counterexample: the "vice versa" direction — the experimental table
carries a `dataset` dimension while the control table does not — does not
fail: `fit_params_minimal` runs to completion and produces an output row
(whose `min_dose_measured = 1/10` shows the control row was matched and
included). -/
theorem C3_counterexample :
    fit_params_minimal mockF (fun _ => none)
      (some ⟨false, [⟨"", "cl1", "p1", "w0", some (2 / 10), 1 / 100, none⟩]⟩)
      ⟨true, true, false,
        [⟨"ds1", "cl1", ["drugA"], [1], "w1", "p1", some (1 / 10), 1 / 100, none⟩]⟩
      .ll4 (fun ds => npMinQ ds / 10) =
      .ok [⟨"ds1", "cl1", "drugA", none, 1 / 10, 1, some (1 / 10)⟩] := by
  with_unfolding_all decide

/-- C3 witness: the amended theorem at a concrete DIP-rate input whose
control table is dataset-keyed while the experimental one is not. -/
theorem C3_witness :
    fit_params_minimal mockF (fun _ => none)
      (some ⟨true, [⟨"ds1", "cl1", "p1", "w0", some (2 / 10), 1 / 100, none⟩]⟩)
      ⟨false, true, false,
        [⟨"", "cl1", ["drugA"], [1], "w1", "p1", some (1 / 10), 1 / 100, none⟩]⟩
      .ll4 (fun ds => npMinQ ds / 10) = .error .datasetKeying := by
  exact C3_theorem mockF (fun _ => none) .ll4 (fun ds => npMinQ ds / 10)
    ⟨true, [⟨"ds1", "cl1", "p1", "w0", some (2 / 10), 1 / 100, none⟩]⟩
    ⟨false, true, false,
      [⟨"", "cl1", ["drugA"], [1], "w1", "p1", some (1 / 10), 1 / 100, none⟩]⟩
    rfl rfl rfl (by with_unfolding_all decide) (by simp)

/-! ## Claim C4 -/

/-- C4 (amended): for DIP-rate groups with control data available, the dose
and response arrays handed to the Curve Fitter are the matching control
responses — each paired with the synthesized dose
`ctrl_dose_fn(doses_expt)`, one-tenth of the minimum experimental dose under
the default — followed by the experimental ones; for viability data the
fitter receives only the experimental arrays (see the counterexample). -/
theorem C4_theorem (ctrl_data : Option CtrlData) (expt_has_plate : Bool)
    (dataset : Option String) (cl_name : String) (dip_grp : List ExptRow)
    (cs : List CtrlRow)
    (hctrl : _get_control_responses ctrl_data dataset cl_name expt_has_plate
      dip_grp = some cs) :
    fitter_input false ctrl_data expt_has_plate dataset cl_name dip_grp
        (fun doses => npMinQ doses / 10) =
      (List.replicate cs.length
          (npMinQ (dip_grp.map (fun r => r.dose.headD 0)) / 10)
        ++ dip_grp.map (fun r => r.dose.headD 0),
       cs.map (fun r => r.dip_rate) ++ dip_grp.map (fun r => r.dip_rate),
       some (cs.map (fun r => r.dip_fit_std_err)
        ++ dip_grp.map (fun r => r.dip_fit_std_err))) := by
  unfold fitter_input
  simp [hctrl]

/-- C4 counterexample: a viability group with one matching control row (the
control lookup succeeds) still hands the Curve Fitter only the experimental
dose array `[1]`, not the concatenation `[1/10, 1]` the claim requires. -/
theorem C4_counterexample :
    fitter_input true
        (some ⟨false, [⟨"", "cl1", "p1", "w0", some (1 / 100), 1 / 1000, some (99 / 100)⟩]⟩)
        true (some "ds1") "cl1"
        [⟨"ds1", "cl1", ["drugA"], [1], "w1", "p1", none, 0, some (9 / 10)⟩]
        (fun doses => npMinQ doses / 10) =
      ([1], [some (9 / 10)], none)
    ∧ _get_control_responses
        (some ⟨false, [⟨"", "cl1", "p1", "w0", some (1 / 100), 1 / 1000, some (99 / 100)⟩]⟩)
        (some "ds1") "cl1" true
        [⟨"ds1", "cl1", ["drugA"], [1], "w1", "p1", none, 0, some (9 / 10)⟩] =
      some [⟨"", "cl1", "p1", "w0", some (1 / 100), 1 / 1000, some (99 / 100)⟩]
    ∧ ([1] : List ℚ) ≠ List.replicate 1 ((1 : ℚ) / 10) ++ [1] := by
  refine ⟨?_, ?_, ?_⟩ <;> with_unfolding_all decide

/-- C4 witness: the amended theorem at a concrete DIP group with one
matching control row, followed by evaluation of the assembled arrays. -/
theorem C4_witness :
    fitter_input false
        (some ⟨false, [⟨"", "cl1", "p1", "w0", some (1 / 100), 1 / 1000, none⟩]⟩)
        true none "cl1"
        [⟨"", "cl1", ["drugA"], [1], "w1", "p1", some (1 / 10), 1 / 100, none⟩]
        (fun doses => npMinQ doses / 10) =
      ([1 / 10, 1], [some (1 / 100), some (1 / 10)], some [1 / 1000, 1 / 100]) := by
  have h := C4_theorem
    (some ⟨false, [⟨"", "cl1", "p1", "w0", some (1 / 100), 1 / 1000, none⟩]⟩)
    true none "cl1"
    [⟨"", "cl1", ["drugA"], [1], "w1", "p1", some (1 / 10), 1 / 100, none⟩]
    [⟨"", "cl1", "p1", "w0", some (1 / 100), 1 / 1000, none⟩]
    (by with_unfolding_all decide)
  exact h.trans (by with_unfolding_all decide)

end Thunor
